import Mathlib

/-!
Shallow embedding of the client-side relay core found in the Go package
`chainproxy` (file src/unnamed/part_000): the two-phase relay dispatcher
`SendRelay` with its two closures `callback_send_relay` and
`callback_send_reliability`, the reply authenticator `VerifyRelayReply`,
and the chain-proxy factory `GetChainProxy`.

External collaborators (signing primitives, transport clients, address
codecs, the sentry and the QoS scorer) are represented as oracle functions
bundled in an environment record; the state a callback mutates (the leased
session's QoS counters and the closure-captured `blockHeight` /
`requestedBlock` variables) is threaded explicitly.  Every transport or
signing invocation is additionally recorded in an event trace so that
theorems can speak about which calls were made and with which context.
-/

namespace Chainproxy

/-- Go errors are compared in the source only through their message string
(line 160: the deadline check compares `err.Error()` strings), so an error
is modelled as its message. -/
structure GoError where
  msg : String
deriving DecidableEq, Repr

/-- Message of Go's `context.DeadlineExceeded` error. -/
def deadlineExceededMsg : String := "context deadline exceeded"

/-- A detached signature as produced by the signing primitives. -/
structure Sig where
  bytes : String
deriving DecidableEq, Repr

/-- Handle of a streaming subscription (`Relayer_RelaySubscribeClient`). -/
structure SubHandle where
  streamId : String
deriving DecidableEq, Repr

/-- The last computed QoS report embedded into the next request
(`QoSInfo.LastQoSReport`); its numeric content is opaque to this core. -/
structure QoSReport where
  score : Int
deriving DecidableEq, Repr

/-- VRF data payload for the reliability relay (`pairingtypes.VRFData`);
only its signature slot is manipulated by this core (line 220). -/
structure VRFData where
  vrfValue : String
  sig : Option Sig
deriving DecidableEq, Repr

/-- A provider's relay reply (`pairingtypes.RelayReply`): payload, the
latest block the provider observed, and finalization signature material. -/
structure RelayReply where
  payload : String
  latestBlock : Int
  finalizationData : String
deriving DecidableEq, Repr

/-- A relay request (`pairingtypes.RelayRequest`), fields as populated at
lines 122-136 and 194-208 of the source. -/
structure RelayRequest where
  provider : String
  connectionType : String
  apiUrl : String
  data : String
  sessionId : Nat
  chainID : String
  cuSum : Nat
  blockHeight : Int
  relayNum : Nat
  requestBlock : Int
  qoSReport : Option QoSReport
  dataReliability : Option VRFData
  unresponsiveProviders : Option String
  sig : Option Sig
deriving DecidableEq, Repr

/-- Rolling QoS counters of a session (`lavasession` QoSInfo). -/
structure QoSInfo where
  lastQoSReport : Option QoSReport
  totalRelays : Nat
  answeredRelays : Nat
  consecutiveTimeOut : Nat
deriving DecidableEq, Repr

/-- The leased session (`lavasession.SingleConsumerSession`): the fields
this core reads or mutates.  `clientAcc` is `consumerSession.Client.Acc`,
the account address of the provider the session is paired with (it is the
value placed in the `Provider` field of the reliability request, line 195). -/
structure SingleConsumerSession where
  sessionId : Nat
  cuSum : Nat
  relayNum : Nat
  qoSInfo : QoSInfo
  clientAcc : String
deriving DecidableEq, Repr

/-- A recovered public key; `addressHex` is what `key.Address().String()`
renders to (the hex form fed to `AccAddressFromHex`). -/
structure PubKey where
  addressHex : String
deriving DecidableEq, Repr

/-- A cosmos account address; `bech` is its `String()` rendering. -/
structure AccAddress where
  bech : String
deriving DecidableEq, Repr

/-- Oracle for the `sigs` package key-recovery primitives used by
`VerifyRelayReply` (lines 54 and 71). -/
structure SigsOracle where
  recoverPubKeyFromRelayReply : RelayReply → RelayRequest → Except GoError PubKey
  recoverPubKeyFromResponseFinalizationData :
    RelayReply → RelayRequest → AccAddress → Except GoError PubKey

/-- Oracle for the cosmos-sdk address codecs (lines 58, 67, 76). -/
structure SdkOracle where
  accAddressFromHex : String → Except GoError AccAddress
  accAddressFromBech32 : String → Except GoError AccAddress

/-- Embedding of `VerifyRelayReply` (source lines 52-86): recover the key
behind the reply's primary signature, derive its address and compare it to
`addr`; when `comparesHashes` is set additionally recover the key behind
the finalization (sigblock) material using the address decoded from `addr`
as binding context and compare the derived address to that same address. -/
def VerifyRelayReply (sigsO : SigsOracle) (sdkO : SdkOracle)
    (reply : RelayReply) (relayRequest : RelayRequest)
    (addr : String) (comparesHashes : Bool) : Except GoError Unit :=
  match sigsO.recoverPubKeyFromRelayReply reply relayRequest with
  | .error e => .error e
  | .ok serverKey =>
    match sdkO.accAddressFromHex serverKey.addressHex with
    | .error e => .error e
    | .ok serverAddr =>
      if serverAddr.bech ≠ addr then
        .error ⟨"server address mismatch in reply (" ++ serverAddr.bech ++ ") (" ++ addr ++ ")"⟩
      else if comparesHashes then
        match sdkO.accAddressFromBech32 addr with
        | .error e => .error e
        | .ok strAdd =>
          match sigsO.recoverPubKeyFromResponseFinalizationData reply relayRequest strAdd with
          | .error e => .error e
          | .ok serverKey2 =>
            match sdkO.accAddressFromHex serverKey2.addressHex with
            | .error e => .error e
            | .ok serverAddr2 =>
              if serverAddr2.bech ≠ strAdd.bech then
                .error ⟨"server address mismatch in reply sigblocks (" ++ serverAddr2.bech ++ ") (" ++ strAdd.bech ++ ")"⟩
              else .ok ()
      else .ok ()

/-- Transcription of the SPEC's wording of section 4.2 (refinement
comparison only, not a source translation): step 1 checks the primary
signature against the expected provider address; step 2, under the
cross-validation flag, recovers the finalization key using the CONSUMER'S
OWN address as binding context and fails when the derived address differs
from the consumer's address. -/
def VerifyRelayReplySpec (sigsO : SigsOracle) (sdkO : SdkOracle)
    (reply : RelayReply) (relayRequest : RelayRequest)
    (providerAddr consumerAddr : String) (comparesHashes : Bool) : Except GoError Unit :=
  match sigsO.recoverPubKeyFromRelayReply reply relayRequest with
  | .error e => .error e
  | .ok serverKey =>
    match sdkO.accAddressFromHex serverKey.addressHex with
    | .error e => .error e
    | .ok serverAddr =>
      if serverAddr.bech ≠ providerAddr then
        .error ⟨"server address mismatch in reply (" ++ serverAddr.bech ++ ") (" ++ providerAddr ++ ")"⟩
      else if comparesHashes then
        match sdkO.accAddressFromBech32 consumerAddr with
        | .error e => .error e
        | .ok strAdd =>
          match sigsO.recoverPubKeyFromResponseFinalizationData reply relayRequest strAdd with
          | .error e => .error e
          | .ok serverKey2 =>
            match sdkO.accAddressFromHex serverKey2.addressHex with
            | .error e => .error e
            | .ok serverAddr2 =>
              if serverAddr2.bech ≠ strAdd.bech then
                .error ⟨"server address mismatch in reply sigblocks (" ++ serverAddr2.bech ++ ") (" ++ strAdd.bech ++ ")"⟩
              else .ok ()
      else .ok ()

/-- The three chain-proxy variants selectable in `GetChainProxy`; their Go
constructors (`NewJrpcChainProxy`, `NewtendermintRpcChainProxy`,
`NewRestChainProxy`, bodies outside this file's source) always yield a
proxy bundle, represented here by the variant tag. -/
inductive ChainProxyKind where
  | jrpcChainProxy
  | tendermintRpcChainProxy
  | restChainProxy
deriving DecidableEq, Repr

/-- Embedding of `GetChainProxy` (source lines 39-50): switch on the
sentry's `ApiInterface` selector. -/
def GetChainProxy (apiInterface : String) : Except GoError ChainProxyKind :=
  if apiInterface = "jsonrpc" then .ok .jrpcChainProxy
  else if apiInterface = "tendermintrpc" then .ok .tendermintRpcChainProxy
  else if apiInterface = "rest" then .ok .restChainProxy
  else .error ⟨"chain proxy for apiInterface (" ++ apiInterface ++ ") not found"⟩

/-- A Go context, abstracted to what the source does with it: the caller's
context may be wrapped by `context.WithTimeout` (line 147), recording the
timeout in nanoseconds as Go durations are. -/
inductive Ctx where
  | caller
  | withTimeout (parent : Ctx) (timeoutNanos : Nat)
deriving DecidableEq, Repr

/-- Source line 19: `DefaultTimeout = 5 * time.Second`, in nanoseconds. -/
def DefaultTimeout : Nat := 5 * 1000000000

/-- One external invocation made by a callback, recording the argument the
source passed (in particular which context a transport call received) and
the outcome the environment produced. -/
inductive Event where
  | signRelayCall (req : RelayRequest) (res : Except GoError Sig)
  | signVRFDataCall (d : VRFData) (res : Except GoError Sig)
  | relayCall (c : Ctx) (req : RelayRequest) (res : Except GoError RelayReply)
  | relaySubscribeCall (c : Ctx) (req : RelayRequest) (res : Except GoError SubHandle)

/-- True exactly on transport-send events. -/
def Event.isSend : Event → Bool
  | .relayCall _ _ _ => true
  | .relaySubscribeCall _ _ _ => true
  | _ => false

/-- Whether a trace contains any transport send. -/
def hasSend (t : List Event) : Bool := t.any Event.isSend

/-- Static data read from the sentry inside the callbacks: `ChainID`
(line 128), `GetSpecComparesHashes` (lines 175, 227), `ExpectedBlockHeight`
(line 180) and `GetProvidersCount` (line 181). -/
structure SentryData where
  chainID : String
  specComparesHashes : Bool
  expectedBlockHeight : Int
  numOfProviders : Nat
  providersCount : Nat
deriving DecidableEq, Repr

/-- Environment of external collaborators used by the two callbacks.
`calculateQoS` is Modelled from the spec: `SingleConsumerSession.CalculateQoS`
(lavasession code, not in this source) computes the updated report from
compute units, latency, block-height difference, available-provider count
and provider population, updates `LastQoSReport` in place and never fails
(spec section 4.3); it does not touch the relay counters, which the
dispatcher itself mutates visibly in this source.  `elapsedLatency` stands
for the wall-clock measurement `time.Since(relaySentTime)`. -/
structure Env where
  signRelay : RelayRequest → Except GoError Sig
  signVRFData : VRFData → Except GoError Sig
  relay : Ctx → RelayRequest → Except GoError RelayReply
  relaySubscribe : Ctx → RelayRequest → Except GoError SubHandle
  sigs : SigsOracle
  sdk : SdkOracle
  sentry : SentryData
  elapsedLatency : Nat
  calculateQoS : Nat → Nat → Int → Nat → Nat → QoSReport

/-- Per-call parameters of `SendRelay` captured by both closures: the
provider chosen at lease time, the connection type, the url, the raw
request bytes, the parsed message's requested-block hint
(`nodeMsg.RequestedBlock()`, line 132) and its compute units. -/
structure CallParams where
  providerPublicAddress : String
  connectionType : String
  url : String
  reqData : String
  nodeRequestedBlock : Int
  computeUnits : Nat
deriving DecidableEq, Repr

/-- The primary relay request as populated at source lines 122-136 (before
signing). -/
def primaryRequest (env : Env) (p : CallParams) (s : SingleConsumerSession)
    (blockHeight : Int) (unresponsiveProviders : Option String) : RelayRequest :=
  { provider := p.providerPublicAddress
    connectionType := p.connectionType
    apiUrl := p.url
    data := p.reqData
    sessionId := s.sessionId
    chainID := env.sentry.chainID
    cuSum := s.cuSum
    blockHeight := blockHeight
    relayNum := s.relayNum
    requestBlock := p.nodeRequestedBlock
    qoSReport := s.qoSInfo.lastQoSReport
    dataReliability := none
    unresponsiveProviders := unresponsiveProviders
    sig := none }

/-- Attach the relay signature (source line 142). -/
def withSig (r : RelayRequest) (sg : Sig) : RelayRequest := { r with sig := some sg }

/-- Attach the VRF signature to the embedded reliability payload (source
line 220). -/
def setVRFSig (r : RelayRequest) (sg : Sig) : RelayRequest :=
  { r with dataReliability := r.dataReliability.map (fun d => { d with sig := some sg }) }

/-- Source line 146: `consumerSession.QoSInfo.TotalRelays++`. -/
def bumpTotal (s : SingleConsumerSession) : SingleConsumerSession :=
  { s with qoSInfo := { s.qoSInfo with totalRelays := s.qoSInfo.totalRelays + 1 } }

/-- Source lines 160-162: increment `ConsecutiveTimeOut` when the transport
error's message equals the `context.DeadlineExceeded` message. -/
def bumpTimeoutOn (e : GoError) (s : SingleConsumerSession) : SingleConsumerSession :=
  if e.msg = deadlineExceededMsg then
    { s with qoSInfo := { s.qoSInfo with consecutiveTimeOut := s.qoSInfo.consecutiveTimeOut + 1 } }
  else s

/-- Source lines 168-169: reset `ConsecutiveTimeOut` and increment
`AnsweredRelays` once a unary reply arrived. -/
def markAnswered (s : SingleConsumerSession) : SingleConsumerSession :=
  { s with qoSInfo := { s.qoSInfo with
      consecutiveTimeOut := 0
      answeredRelays := s.qoSInfo.answeredRelays + 1 } }

/-- Store the freshly computed QoS report (effect of `CalculateQoS` at
source line 181 on `LastQoSReport`). -/
def setReport (s : SingleConsumerSession) (q : QoSReport) : SingleConsumerSession :=
  { s with qoSInfo := { s.qoSInfo with lastQoSReport := some q } }

/-- Sentinel for an arbitrary / latest-block request hint (a negative
magic value in the spec package). -/
def LATEST_BLOCK : Int := -2

/-- Modelled from the spec: `sentry.UpdateRequestedBlock` (sentry package,
not in this source) overwrites an arbitrary or latest-block request hint
with the concrete block the primary reply actually resolved to, and leaves
an already concrete requested block unchanged (spec section 4.1: for the
reliability follow-up the requested block is overwritten with whatever
block the primary relay's reply actually resolved to). -/
def UpdateRequestedBlock (request : RelayRequest) (reply : RelayReply) : RelayRequest :=
  if request.requestBlock = LATEST_BLOCK then
    { request with requestBlock := reply.latestBlock }
  else request

/-- Outcome of one run of `callback_send_relay`: the returned triple
(reply, subscription stream, the relay request as finally mutated — each
nil-able in Go, hence Option), the session as mutated, the values of the
closure-captured `blockHeight` and `requestedBlock` variables on exit, and
the trace of external invocations. -/
structure RelayCallbackResult where
  result : Except GoError (Option RelayReply × Option SubHandle × Option RelayRequest)
  session : SingleConsumerSession
  blockHeight : Int
  requestedBlock : Int
  trace : List Event

/-- Embedding of `callback_send_relay` (source lines 118-185).  Steps, in
source order: set `blockHeight` to the epoch (line 120); build the request
(122-136); sign it (138-142) — a signing error returns with no send;
count the attempt (146); derive the bounded context (147); send — the
subscription send uses the caller's context (154), the unary send the
bounded one (156); on a send error penalize a deadline-exceeded message
(159-163); a unary answer resets the timeout counter, counts an answered
relay (168-169), pins `requestedBlock` to the reply's resolution (171-173),
verifies the reply (175-178) and on success scores the session (180-181). -/
def callbackSendRelay (env : Env) (p : CallParams) (ctx : Ctx) (epoch : Nat)
    (isSubscription : Bool) (s : SingleConsumerSession) (requestedBlock : Int)
    (unresponsiveProviders : Option String) : RelayCallbackResult :=
  let blockHeight : Int := Int.ofNat epoch
  let req0 := primaryRequest env p s blockHeight unresponsiveProviders
  match env.signRelay req0 with
  | .error e =>
    ⟨.error e, s, blockHeight, requestedBlock, [.signRelayCall req0 (.error e)]⟩
  | .ok sg =>
    let relayRequest := withSig req0 sg
    let s1 := bumpTotal s
    let connectCtx := Ctx.withTimeout ctx DefaultTimeout
    if isSubscription then
      match env.relaySubscribe ctx relayRequest with
      | .error e =>
        ⟨.error e, bumpTimeoutOn e s1, blockHeight, requestedBlock,
          [.signRelayCall req0 (.ok sg), .relaySubscribeCall ctx relayRequest (.error e)]⟩
      | .ok sub =>
        ⟨.ok (none, some sub, some relayRequest), s1, blockHeight, requestedBlock,
          [.signRelayCall req0 (.ok sg), .relaySubscribeCall ctx relayRequest (.ok sub)]⟩
    else
      match env.relay connectCtx relayRequest with
      | .error e =>
        ⟨.error e, bumpTimeoutOn e s1, blockHeight, requestedBlock,
          [.signRelayCall req0 (.ok sg), .relayCall connectCtx relayRequest (.error e)]⟩
      | .ok reply =>
        let s2 := markAnswered s1
        let updatedRequest := UpdateRequestedBlock relayRequest reply
        let newRequestedBlock := updatedRequest.requestBlock
        let trace := [Event.signRelayCall req0 (.ok sg),
                      Event.relayCall connectCtx relayRequest (.ok reply)]
        match VerifyRelayReply env.sigs env.sdk reply updatedRequest s.clientAcc
            env.sentry.specComparesHashes with
        | .error e => ⟨.error e, s2, blockHeight, newRequestedBlock, trace⟩
        | .ok _ =>
          let s3 := setReport s2 (env.calculateQoS p.computeUnits env.elapsedLatency
            (env.sentry.expectedBlockHeight - reply.latestBlock)
            env.sentry.numOfProviders env.sentry.providersCount)
          ⟨.ok (some reply, none, some updatedRequest), s3, blockHeight, newRequestedBlock, trace⟩

/-- The reliability relay request as populated at source lines 194-208
(before signing): provider is the session's paired provider account,
session id is the reserved 0, block height and requested block are the
closure-captured values set by the primary callback. -/
def reliabilityRequest (env : Env) (p : CallParams) (s : SingleConsumerSession)
    (blockHeight requestedBlock : Int) (dataReliability : VRFData)
    (unresponsiveProviders : Option String) : RelayRequest :=
  { provider := s.clientAcc
    connectionType := p.connectionType
    apiUrl := p.url
    data := p.reqData
    sessionId := 0
    chainID := env.sentry.chainID
    cuSum := s.cuSum
    blockHeight := blockHeight
    relayNum := s.relayNum
    requestBlock := requestedBlock
    qoSReport := none
    dataReliability := some dataReliability
    unresponsiveProviders := unresponsiveProviders
    sig := none }

/-- Outcome of one run of `callback_send_reliability`: the returned pair,
the session (this callback mutates no session counters), and the trace of
external invocations. -/
structure ReliabilityCallbackResult where
  result : Except GoError (RelayReply × RelayRequest)
  session : SingleConsumerSession
  trace : List Event

/-- Embedding of `callback_send_reliability` (source lines 187-233).
Steps, in source order: guard on `blockHeight < 0` (190-192); build the
request (194-208); sign it (210-214); sign the embedded VRF data
(216-220); send with the caller's context, unbounded (222); verify the
reply (227-230). -/
def callbackSendReliability (env : Env) (p : CallParams) (ctx : Ctx)
    (s : SingleConsumerSession) (blockHeight requestedBlock : Int)
    (dataReliability : VRFData) (unresponsiveProviders : Option String) :
    ReliabilityCallbackResult :=
  if blockHeight < 0 then
    ⟨.error ⟨"expected callback_send_relay to be called first and set blockHeight"⟩, s, []⟩
  else
    let req0 := reliabilityRequest env p s blockHeight requestedBlock dataReliability
      unresponsiveProviders
    match env.signRelay req0 with
    | .error e => ⟨.error e, s, [.signRelayCall req0 (.error e)]⟩
    | .ok sg =>
      let relayRequest := withSig req0 sg
      match env.signVRFData dataReliability with
      | .error e =>
        ⟨.error e, s, [.signRelayCall req0 (.ok sg), .signVRFDataCall dataReliability (.error e)]⟩
      | .ok vsg =>
        let signedRequest := setVRFSig relayRequest vsg
        match env.relay ctx signedRequest with
        | .error e =>
          ⟨.error e, s, [.signRelayCall req0 (.ok sg), .signVRFDataCall dataReliability (.ok vsg),
            .relayCall ctx signedRequest (.error e)]⟩
        | .ok reply =>
          let trace := [Event.signRelayCall req0 (.ok sg),
                        Event.signVRFDataCall dataReliability (.ok vsg),
                        Event.relayCall ctx signedRequest (.ok reply)]
          match VerifyRelayReply env.sigs env.sdk reply signedRequest s.clientAcc
              env.sentry.specComparesHashes with
          | .error e => ⟨.error e, s, trace⟩
          | .ok _ => ⟨.ok (reply, signedRequest), s, trace⟩

/-- Result of a parse: the fields of the parsed message `SendRelay` reads. -/
structure ParsedMsg where
  isSubscription : Bool
  computeUnits : Nat
  requestedBlockHint : Int
deriving DecidableEq, Repr

/-- Result of a successful session lease (`GetSession`, source line 112). -/
structure SessionLease where
  session : SingleConsumerSession
  epoch : Nat
  providerPublicAddress : String
deriving DecidableEq, Repr

/-- A Go function either returns a value or panics at runtime. -/
inductive GoReturn (α : Type) where
  | ret (value : α)
  | panicked (msg : String)

/-- Observable outcome of `SendRelay`: the returned triple (each component
nil-able in Go) or a panic, together with the list of `OnSessionDone`
invocations made on the session manager, each recording the epoch and
latest-block arguments. -/
structure SendRelayOutcome where
  result : GoReturn (Option RelayReply × Option SubHandle × Option GoError)
  onSessionDoneCalls : List (Nat × Int)

/-- Embedding of the trailing logic of `SendRelay` (source lines 93-247)
around its external collaborators, each abstracted as its result: the
parse (line 103), the session lease (line 112), and the orchestrated
`sentry.SendRelay` call (line 235), whose returned triple is Modelled from
the spec — `sentry.SendRelay` (sentry package, not in this source) drives
the two callbacks and on a failed attempt surfaces the error with no reply,
since an erred or unverified reply must not be returned (spec sections 4.4
and 7).  After that call the source reads `reply.LatestBlock` (line 243)
unconditionally — a nil-pointer panic whenever no reply came back — and
only then calls `OnSessionDone` (line 244). -/
def SendRelayModel (parseRes : Except GoError ParsedMsg)
    (leaseRes : Except GoError SessionLease)
    (sentryOutcome : Option RelayReply × Option SubHandle × Option GoError) :
    SendRelayOutcome :=
  match parseRes with
  | .error e => ⟨.ret (none, none, some e), []⟩
  | .ok _ =>
    match leaseRes with
    | .error e => ⟨.ret (none, none, some e), []⟩
    | .ok lease =>
      match sentryOutcome with
      | (none, _, _) => ⟨.panicked "invalid memory address or nil pointer dereference", []⟩
      | (some reply, subOpt, errOpt) =>
        ⟨.ret (some reply, subOpt, errOpt), [(lease.epoch, reply.latestBlock)]⟩

/-! Concrete sample inputs used to evaluate the model at specific points. -/

/-- Sample QoS counters: 7 total, 5 answered, 2 consecutive timeouts. -/
def sampleQoS : QoSInfo := ⟨none, 7, 5, 2⟩

/-- Sample leased session paired with provider account "provider". -/
def sampleSession : SingleConsumerSession := ⟨42, 100, 3, sampleQoS, "provider"⟩

/-- Sample parsed unary message. -/
def sampleParsed : ParsedMsg := ⟨false, 10, 20⟩

/-- Sample successful lease at epoch 5. -/
def sampleLease : SessionLease := ⟨sampleSession, 5, "provider"⟩

/-- Sample provider reply with latest block 17. -/
def sampleReply : RelayReply := ⟨"result", 17, "fin"⟩

/-- Sample per-call parameters with a concrete requested-block hint 20. -/
def sampleParams : CallParams := ⟨"provider", "POST", "/req", "data", 20, 10⟩

/-- Sample sentry data; hash comparison disabled. -/
def sampleSentry : SentryData := ⟨"LAV1", false, 20, 4, 10⟩

/-- Address codec oracle that decodes every rendering to itself. -/
def idSdkOracle : SdkOracle := ⟨fun h => .ok ⟨h⟩, fun b => .ok ⟨b⟩⟩

/-- Recovery oracle of a reply signed by a key whose address is
"deadbeef", not the expected provider. -/
def wrongKeySigsOracle : SigsOracle :=
  ⟨fun _ _ => .ok ⟨"deadbeef"⟩, fun _ _ a => .ok ⟨a.bech⟩⟩

/-- Recovery oracle of a reply signed by the provider key. -/
def matchKeySigsOracle : SigsOracle :=
  ⟨fun _ _ => .ok ⟨"provider"⟩, fun _ _ a => .ok ⟨a.bech⟩⟩

/-- Recovery oracle of a reply whose primary signature is the provider's
and whose finalization material binds to the provider's address: recovery
succeeds when seeded with the provider address as binding context and
yields an unrelated key for any other context. -/
def providerBoundSigsOracle : SigsOracle :=
  ⟨fun _ _ => .ok ⟨"provider"⟩,
   fun _ _ ctxAddr => if ctxAddr.bech = "provider" then .ok ⟨"provider"⟩ else .ok ⟨"unbound"⟩⟩

/-- Environment in which signing and transport succeed but the reply was
signed by the wrong key, so verification fails. -/
def cexEnv : Env :=
  { signRelay := fun _ => .ok ⟨"sigbytes"⟩
    signVRFData := fun _ => .ok ⟨"vrfsig"⟩
    relay := fun _ _ => .ok sampleReply
    relaySubscribe := fun _ _ => .ok ⟨"stream"⟩
    sigs := wrongKeySigsOracle
    sdk := idSdkOracle
    sentry := sampleSentry
    elapsedLatency := 3
    calculateQoS := fun _ _ _ _ _ => ⟨1⟩ }

/-- Environment in which everything succeeds, verification included. -/
def okEnv : Env := { cexEnv with sigs := matchKeySigsOracle }

/-- Environment whose relay-signing primitive fails. -/
def failSignEnv : Env := { cexEnv with signRelay := fun _ => .error ⟨"signing failed"⟩ }

/-- Sample VRF data payload. -/
def sampleVRF : VRFData := ⟨"vrfproof", none⟩

/-- Sample unsigned primary request built from the sample inputs. -/
def sampleUnsignedRequest : RelayRequest :=
  primaryRequest cexEnv sampleParams sampleSession (Int.ofNat 5) none

/-- The signed primary request returned by a successful sample run. -/
def samplePrimaryReturned : RelayRequest :=
  withSig (primaryRequest okEnv sampleParams sampleSession (Int.ofNat 5) none) ⟨"sigbytes"⟩

/-! Theorems settling the claims. -/

/-- C1: the source violates the session-release invariant.  When the
orchestrated send comes back with an error and hence no reply (here: a
timeout), `SendRelay` dereferences the nil reply at line 243 — a runtime
panic — before the `OnSessionDone` call at line 244, so the session manager
receives zero `OnSessionDone` calls and the leased session leaks; only on
a path with a non-nil reply is the session released exactly once. -/
theorem sendRelay_session_release_violated :
    (SendRelayModel (.ok sampleParsed) (.ok sampleLease)
        (none, none, some ⟨deadlineExceededMsg⟩)).onSessionDoneCalls = [] ∧
    (SendRelayModel (.ok sampleParsed) (.ok sampleLease)
        (none, none, some ⟨deadlineExceededMsg⟩)).result
      = .panicked "invalid memory address or nil pointer dereference" ∧
    (SendRelayModel (.ok sampleParsed) (.ok sampleLease)
        (some sampleReply, none, none)).onSessionDoneCalls = [(5, 17)] :=
  ⟨rfl, rfl, rfl⟩

/-- C8: `GetChainProxy` succeeds exactly on the selectors "jsonrpc",
"tendermintrpc" and "rest", and for every other selector returns an error
whose message names the unsupported interface. -/
theorem getChainProxy_supported_selectors (apiInterface : String) :
    ((∃ k, GetChainProxy apiInterface = .ok k) ↔
      (apiInterface = "jsonrpc" ∨ apiInterface = "tendermintrpc" ∨ apiInterface = "rest")) ∧
    (¬ (apiInterface = "jsonrpc" ∨ apiInterface = "tendermintrpc" ∨ apiInterface = "rest") →
      GetChainProxy apiInterface =
        .error ⟨"chain proxy for apiInterface (" ++ apiInterface ++ ") not found"⟩) := by
  unfold GetChainProxy
  by_cases h1 : apiInterface = "jsonrpc" <;>
    by_cases h2 : apiInterface = "tendermintrpc" <;>
      by_cases h3 : apiInterface = "rest" <;>
        simp [h1, h2, h3]

/-- Witness for C8 at the unsupported selector "grpc". -/
theorem getChainProxy_supported_selectors_witness :
    GetChainProxy "grpc" =
      .error ⟨"chain proxy for apiInterface (" ++ "grpc" ++ ") not found"⟩ :=
  (getChainProxy_supported_selectors "grpc").2 (by decide)

/-- C2 counterexample: a unary relay whose reply fails verification (the
reply was signed by a key with address "deadbeef" instead of the expected
"provider") makes `callback_send_relay` return an error and no reply, yet
the session's `QoSInfo.AnsweredRelays` counter IS incremented by that
attempt, because line 169 increments it before the verification at
line 175. -/
theorem answeredRelays_bumped_on_verification_failure :
    (callbackSendRelay cexEnv sampleParams .caller 5 false sampleSession 0 none).result
      = .error ⟨"server address mismatch in reply (deadbeef) (provider)"⟩ ∧
    (callbackSendRelay cexEnv sampleParams .caller 5 false sampleSession 0 none).session.qoSInfo.answeredRelays
      = sampleSession.qoSInfo.answeredRelays + 1 :=
  ⟨rfl, rfl⟩

/-- C3 counterexample: with `comparesHashes` set, the source's
cross-validation binds the finalization recovery to the `addr` argument —
the expected provider address — not to the consumer's address: on a reply
whose finalization material binds only to the provider address, the source
check succeeds, while the spec's consumer-bound check (the derived address
"unbound" differs from the consumer's address) fails. -/
theorem crossValidation_binds_provider_address :
    VerifyRelayReply providerBoundSigsOracle idSdkOracle sampleReply sampleUnsignedRequest
        "provider" true = .ok () ∧
    VerifyRelayReplySpec providerBoundSigsOracle idSdkOracle sampleReply sampleUnsignedRequest
        "provider" "consumer" true
      = .error ⟨"server address mismatch in reply sigblocks (unbound) (consumer)"⟩ :=
  ⟨rfl, rfl⟩

/-- C9: invoked while the shared `blockHeight` is still negative (its
initial value is -1, set at line 108, before `callback_send_relay` ever
ran), `callback_send_reliability` returns an error, performs no external
invocation at all (no build, sign or send) and leaves the session
untouched. -/
theorem reliability_requires_primary_first (env : Env) (p : CallParams) (ctx : Ctx)
    (s : SingleConsumerSession) (blockHeight requestedBlock : Int) (d : VRFData)
    (unresp : Option String) (h : blockHeight < 0) :
    (callbackSendReliability env p ctx s blockHeight requestedBlock d unresp).result
      = .error ⟨"expected callback_send_relay to be called first and set blockHeight"⟩ ∧
    (callbackSendReliability env p ctx s blockHeight requestedBlock d unresp).trace = [] ∧
    (callbackSendReliability env p ctx s blockHeight requestedBlock d unresp).session = s := by
  unfold callbackSendReliability
  simp [h]

/-- Witness for C9 at the initial value -1 of `blockHeight`. -/
theorem reliability_requires_primary_first_witness :
    (callbackSendReliability cexEnv sampleParams .caller sampleSession (-1) 0 sampleVRF
        none).result
      = .error ⟨"expected callback_send_relay to be called first and set blockHeight"⟩ :=
  (reliability_requires_primary_first cexEnv sampleParams .caller sampleSession (-1) 0 sampleVRF
    none (by decide)).1

/-- C2 (amended): when verification of a unary primary relay reply fails,
`callback_send_relay` returns that error with no reply — so the reply is
not passed on as a trusted answer — and the session's
`QoSInfo.AnsweredRelays` counter is incremented by one by that relay
attempt (the reply was counted as answered when it arrived, before
verification). -/
theorem verification_failure_returns_error_and_counts_answered
    (env : Env) (p : CallParams) (ctx : Ctx) (epoch : Nat) (s : SingleConsumerSession)
    (rb : Int) (unresp : Option String) (sg : Sig) (reply : RelayReply) (e : GoError)
    (h1 : env.signRelay (primaryRequest env p s (Int.ofNat epoch) unresp) = .ok sg)
    (h2 : env.relay (Ctx.withTimeout ctx DefaultTimeout)
        (withSig (primaryRequest env p s (Int.ofNat epoch) unresp) sg) = .ok reply)
    (h3 : VerifyRelayReply env.sigs env.sdk reply
        (UpdateRequestedBlock (withSig (primaryRequest env p s (Int.ofNat epoch) unresp) sg) reply)
        s.clientAcc env.sentry.specComparesHashes = .error e) :
    (callbackSendRelay env p ctx epoch false s rb unresp).result = .error e ∧
    (callbackSendRelay env p ctx epoch false s rb unresp).session.qoSInfo.answeredRelays
      = s.qoSInfo.answeredRelays + 1 := by
  unfold callbackSendRelay
  simp only [h1, h2, h3]
  exact ⟨rfl, rfl⟩

/-- Witness for C2 (amended) on the concrete wrong-key environment. -/
theorem verification_failure_returns_error_and_counts_answered_witness :
    (callbackSendRelay cexEnv sampleParams .caller 5 false sampleSession 0
        none).session.qoSInfo.answeredRelays
      = sampleSession.qoSInfo.answeredRelays + 1 :=
  (verification_failure_returns_error_and_counts_answered cexEnv sampleParams .caller 5
    sampleSession 0 none ⟨"sigbytes"⟩ sampleReply
    ⟨"server address mismatch in reply (deadbeef) (provider)"⟩ rfl rfl rfl).2

/-- C3 (amended): with `comparesHashes` set, `VerifyRelayReply` succeeds
exactly when the primary signature's key derives to the `addr` argument
and, in addition, the finalization-material key recovered with the address
decoded from that SAME `addr` (the expected provider address at both call
sites) as binding context derives back to that address; the consumer's own
address is not involved. -/
theorem verifyRelayReply_crossValidation_uses_addr (sigsO : SigsOracle) (sdkO : SdkOracle)
    (reply : RelayReply) (relayRequest : RelayRequest) (addr : String) :
    VerifyRelayReply sigsO sdkO reply relayRequest addr true = .ok () ↔
      ((∃ k a, sigsO.recoverPubKeyFromRelayReply reply relayRequest = .ok k ∧
          sdkO.accAddressFromHex k.addressHex = .ok a ∧ a.bech = addr) ∧
       (∃ strAdd k2 a2, sdkO.accAddressFromBech32 addr = .ok strAdd ∧
          sigsO.recoverPubKeyFromResponseFinalizationData reply relayRequest strAdd = .ok k2 ∧
          sdkO.accAddressFromHex k2.addressHex = .ok a2 ∧ a2.bech = strAdd.bech)) := by
  unfold VerifyRelayReply
  cases h1 : sigsO.recoverPubKeyFromRelayReply reply relayRequest with
  | error e => simp [h1]
  | ok k =>
    cases h2 : sdkO.accAddressFromHex k.addressHex with
    | error e => simp [h1, h2]
    | ok a =>
      by_cases h3 : a.bech = addr
      · cases h4 : sdkO.accAddressFromBech32 addr with
        | error e => simp [h1, h2, h3, h4]
        | ok strAdd =>
          cases h5 : sigsO.recoverPubKeyFromResponseFinalizationData reply relayRequest strAdd with
          | error e => simp [h1, h2, h3, h4, h5]
          | ok k2 =>
            cases h6 : sdkO.accAddressFromHex k2.addressHex with
            | error e => simp [h1, h2, h3, h4, h5, h6]
            | ok a2 =>
              by_cases h7 : a2.bech = strAdd.bech <;> simp [h1, h2, h3, h4, h5, h6, h7]
      · simp [h1, h2, h3]

/-- C5: the consecutive-timeout counter is reset to zero whenever a unary
relay is answered (whatever verification then decides), is incremented
exactly when the transport send fails with the deadline-exceeded error
message (for the unary and for the subscription send alike), and is left
unchanged on a signing failure, on any other transport error class and on
a successful subscription send. -/
theorem consecutiveTimeout_policy (env : Env) (p : CallParams) (ctx : Ctx) (epoch : Nat)
    (isSubscription : Bool) (s : SingleConsumerSession) (rb : Int) (unresp : Option String) :
    (∀ e, env.signRelay (primaryRequest env p s (Int.ofNat epoch) unresp) = .error e →
      (callbackSendRelay env p ctx epoch isSubscription s rb
          unresp).session.qoSInfo.consecutiveTimeOut
        = s.qoSInfo.consecutiveTimeOut) ∧
    (∀ sg reply, env.signRelay (primaryRequest env p s (Int.ofNat epoch) unresp) = .ok sg →
      env.relay (Ctx.withTimeout ctx DefaultTimeout)
          (withSig (primaryRequest env p s (Int.ofNat epoch) unresp) sg) = .ok reply →
      (callbackSendRelay env p ctx epoch false s rb unresp).session.qoSInfo.consecutiveTimeOut
        = 0) ∧
    (∀ sg e, env.signRelay (primaryRequest env p s (Int.ofNat epoch) unresp) = .ok sg →
      env.relay (Ctx.withTimeout ctx DefaultTimeout)
          (withSig (primaryRequest env p s (Int.ofNat epoch) unresp) sg) = .error e →
      (callbackSendRelay env p ctx epoch false s rb unresp).session.qoSInfo.consecutiveTimeOut
        = (if e.msg = deadlineExceededMsg then s.qoSInfo.consecutiveTimeOut + 1
           else s.qoSInfo.consecutiveTimeOut)) ∧
    (∀ sg e, env.signRelay (primaryRequest env p s (Int.ofNat epoch) unresp) = .ok sg →
      env.relaySubscribe ctx (withSig (primaryRequest env p s (Int.ofNat epoch) unresp) sg)
        = .error e →
      (callbackSendRelay env p ctx epoch true s rb unresp).session.qoSInfo.consecutiveTimeOut
        = (if e.msg = deadlineExceededMsg then s.qoSInfo.consecutiveTimeOut + 1
           else s.qoSInfo.consecutiveTimeOut)) ∧
    (∀ sg sub, env.signRelay (primaryRequest env p s (Int.ofNat epoch) unresp) = .ok sg →
      env.relaySubscribe ctx (withSig (primaryRequest env p s (Int.ofNat epoch) unresp) sg)
        = .ok sub →
      (callbackSendRelay env p ctx epoch true s rb unresp).session.qoSInfo.consecutiveTimeOut
        = s.qoSInfo.consecutiveTimeOut) := by
  refine ⟨?_, ?_, ?_, ?_, ?_⟩
  · intro e h1
    unfold callbackSendRelay
    simp only [h1]
  · intro sg reply h1 h2
    unfold callbackSendRelay
    simp only [h1, h2, Bool.false_eq_true, if_false]
    cases hv : VerifyRelayReply env.sigs env.sdk reply
        (UpdateRequestedBlock (withSig (primaryRequest env p s (Int.ofNat epoch) unresp) sg)
          reply) s.clientAcc env.sentry.specComparesHashes <;>
      simp only [hv] <;> rfl
  · intro sg e h1 h2
    unfold callbackSendRelay
    simp only [h1, h2, Bool.false_eq_true, if_false]
    unfold bumpTimeoutOn bumpTotal
    by_cases hd : e.msg = deadlineExceededMsg
    · simp only [if_pos hd]
    · simp only [if_neg hd]
  · intro sg e h1 h2
    unfold callbackSendRelay
    simp only [h1, h2, if_true]
    unfold bumpTimeoutOn bumpTotal
    by_cases hd : e.msg = deadlineExceededMsg
    · simp only [if_pos hd]
    · simp only [if_neg hd]
  · intro sg sub h1 h2
    unfold callbackSendRelay
    simp only [h1, h2, if_true]
    rfl

/-- Witness for C5: a concrete answered unary relay resets the counter
from 2 to 0. -/
theorem consecutiveTimeout_policy_witness :
    (callbackSendRelay cexEnv sampleParams .caller 5 false sampleSession 0
        none).session.qoSInfo.consecutiveTimeOut = 0 :=
  (consecutiveTimeout_policy cexEnv sampleParams .caller 5 false sampleSession 0
    none).2.1 ⟨"sigbytes"⟩ sampleReply rfl rfl

/-- C6: a failure of the signing primitive aborts the attempt before any
transport send: if `SignRelay` fails while building the primary request,
or `SignRelay` or `SignVRFData` fails while building the reliability
request, the callback returns that very error and its trace contains no
transport send at all. -/
theorem signing_failure_prevents_send (env : Env) (p : CallParams) (ctx : Ctx) (epoch : Nat)
    (isSubscription : Bool) (s : SingleConsumerSession) (rb : Int) (unresp : Option String)
    (bh rb2 : Int) (d : VRFData) (unresp2 : Option String) :
    (∀ e, env.signRelay (primaryRequest env p s (Int.ofNat epoch) unresp) = .error e →
      (callbackSendRelay env p ctx epoch isSubscription s rb unresp).result = .error e ∧
      hasSend (callbackSendRelay env p ctx epoch isSubscription s rb unresp).trace = false) ∧
    (∀ e, ¬ bh < 0 →
      env.signRelay (reliabilityRequest env p s bh rb2 d unresp2) = .error e →
      (callbackSendReliability env p ctx s bh rb2 d unresp2).result = .error e ∧
      hasSend (callbackSendReliability env p ctx s bh rb2 d unresp2).trace = false) ∧
    (∀ sg e, ¬ bh < 0 →
      env.signRelay (reliabilityRequest env p s bh rb2 d unresp2) = .ok sg →
      env.signVRFData d = .error e →
      (callbackSendReliability env p ctx s bh rb2 d unresp2).result = .error e ∧
      hasSend (callbackSendReliability env p ctx s bh rb2 d unresp2).trace = false) := by
  refine ⟨?_, ?_, ?_⟩
  · intro e h1
    unfold callbackSendRelay
    simp only [h1]
    exact ⟨trivial, rfl⟩
  · intro e hbh h1
    unfold callbackSendReliability
    simp only [if_neg hbh, h1]
    exact ⟨trivial, rfl⟩
  · intro sg e hbh h1 h2
    unfold callbackSendReliability
    simp only [if_neg hbh, h1, h2]
    exact ⟨trivial, rfl⟩

/-- Witness for C6: a concrete signing failure yields that error and a
trace without any transport send. -/
theorem signing_failure_prevents_send_witness :
    (callbackSendRelay failSignEnv sampleParams .caller 5 false sampleSession 0 none).result
      = .error ⟨"signing failed"⟩ ∧
    hasSend (callbackSendRelay failSignEnv sampleParams .caller 5 false sampleSession 0
      none).trace = false :=
  (signing_failure_prevents_send failSignEnv sampleParams .caller 5 false sampleSession 0 none
    0 0 sampleVRF none).1 ⟨"signing failed"⟩ rfl

/-- C7: once the primary request is signed, the unary send is performed
with the caller's context wrapped by the `DefaultTimeout` deadline of
5 seconds (5000000000 nanoseconds), while the subscription send is
performed with the caller's context unwrapped — no timeout bound from
this core. -/
theorem send_context_policy (env : Env) (p : CallParams) (ctx : Ctx) (epoch : Nat)
    (s : SingleConsumerSession) (rb : Int) (unresp : Option String) (sg : Sig)
    (h : env.signRelay (primaryRequest env p s (Int.ofNat epoch) unresp) = .ok sg) :
    DefaultTimeout = 5000000000 ∧
    (callbackSendRelay env p ctx epoch false s rb unresp).trace
      = [Event.signRelayCall (primaryRequest env p s (Int.ofNat epoch) unresp) (.ok sg),
         Event.relayCall (Ctx.withTimeout ctx DefaultTimeout)
           (withSig (primaryRequest env p s (Int.ofNat epoch) unresp) sg)
           (env.relay (Ctx.withTimeout ctx DefaultTimeout)
             (withSig (primaryRequest env p s (Int.ofNat epoch) unresp) sg))] ∧
    (callbackSendRelay env p ctx epoch true s rb unresp).trace
      = [Event.signRelayCall (primaryRequest env p s (Int.ofNat epoch) unresp) (.ok sg),
         Event.relaySubscribeCall ctx
           (withSig (primaryRequest env p s (Int.ofNat epoch) unresp) sg)
           (env.relaySubscribe ctx
             (withSig (primaryRequest env p s (Int.ofNat epoch) unresp) sg))] := by
  refine ⟨rfl, ?_, ?_⟩
  · unfold callbackSendRelay
    simp only [h, Bool.false_eq_true, if_false]
    cases h2 : env.relay (Ctx.withTimeout ctx DefaultTimeout)
        (withSig (primaryRequest env p s (Int.ofNat epoch) unresp) sg) with
    | error e => rfl
    | ok reply =>
      cases hv : VerifyRelayReply env.sigs env.sdk reply
          (UpdateRequestedBlock (withSig (primaryRequest env p s (Int.ofNat epoch) unresp) sg)
            reply) s.clientAcc env.sentry.specComparesHashes <;>
        simp only [hv]
  · unfold callbackSendRelay
    simp only [h, if_true]
    cases h2 : env.relaySubscribe ctx
        (withSig (primaryRequest env p s (Int.ofNat epoch) unresp) sg) <;> rfl

/-- Witness for C7 on the concrete sample environment. -/
theorem send_context_policy_witness :
    DefaultTimeout = 5000000000 ∧
    (callbackSendRelay cexEnv sampleParams .caller 5 false sampleSession 0 none).trace
      = [Event.signRelayCall (primaryRequest cexEnv sampleParams sampleSession (Int.ofNat 5)
            none) (.ok ⟨"sigbytes"⟩),
         Event.relayCall (Ctx.withTimeout .caller DefaultTimeout)
           (withSig (primaryRequest cexEnv sampleParams sampleSession (Int.ofNat 5) none)
             ⟨"sigbytes"⟩)
           (cexEnv.relay (Ctx.withTimeout .caller DefaultTimeout)
             (withSig (primaryRequest cexEnv sampleParams sampleSession (Int.ofNat 5) none)
               ⟨"sigbytes"⟩))] :=
  ⟨(send_context_policy cexEnv sampleParams .caller 5 sampleSession 0 none ⟨"sigbytes"⟩ rfl).1,
   (send_context_policy cexEnv sampleParams .caller 5 sampleSession 0 none ⟨"sigbytes"⟩ rfl).2.1⟩

/-- C10: `callback_send_relay` preserves TotalRelays being at least
AnsweredRelays: TotalRelays is incremented on every send attempt — on
every path past a successful signing, failures included — and left alone
when signing fails before any attempt, while AnsweredRelays is
incremented exactly when a unary relay receives a reply and never on a
failed send or a subscription send. -/
theorem totalRelays_ge_answeredRelays (env : Env) (p : CallParams) (ctx : Ctx) (epoch : Nat)
    (isSubscription : Bool) (s : SingleConsumerSession) (rb : Int) (unresp : Option String)
    (h : s.qoSInfo.answeredRelays ≤ s.qoSInfo.totalRelays) :
    ((callbackSendRelay env p ctx epoch isSubscription s rb
        unresp).session.qoSInfo.answeredRelays
      ≤ (callbackSendRelay env p ctx epoch isSubscription s rb
          unresp).session.qoSInfo.totalRelays) ∧
    (∀ e, env.signRelay (primaryRequest env p s (Int.ofNat epoch) unresp) = .error e →
      (callbackSendRelay env p ctx epoch isSubscription s rb unresp).session.qoSInfo.totalRelays
        = s.qoSInfo.totalRelays ∧
      (callbackSendRelay env p ctx epoch isSubscription s rb
          unresp).session.qoSInfo.answeredRelays
        = s.qoSInfo.answeredRelays) ∧
    (∀ sg, env.signRelay (primaryRequest env p s (Int.ofNat epoch) unresp) = .ok sg →
      (callbackSendRelay env p ctx epoch isSubscription s rb unresp).session.qoSInfo.totalRelays
        = s.qoSInfo.totalRelays + 1) ∧
    (∀ sg reply, env.signRelay (primaryRequest env p s (Int.ofNat epoch) unresp) = .ok sg →
      env.relay (Ctx.withTimeout ctx DefaultTimeout)
          (withSig (primaryRequest env p s (Int.ofNat epoch) unresp) sg) = .ok reply →
      (callbackSendRelay env p ctx epoch false s rb unresp).session.qoSInfo.answeredRelays
        = s.qoSInfo.answeredRelays + 1) ∧
    (∀ sg e, env.signRelay (primaryRequest env p s (Int.ofNat epoch) unresp) = .ok sg →
      env.relay (Ctx.withTimeout ctx DefaultTimeout)
          (withSig (primaryRequest env p s (Int.ofNat epoch) unresp) sg) = .error e →
      (callbackSendRelay env p ctx epoch false s rb unresp).session.qoSInfo.answeredRelays
        = s.qoSInfo.answeredRelays) ∧
    (∀ sg, env.signRelay (primaryRequest env p s (Int.ofNat epoch) unresp) = .ok sg →
      (callbackSendRelay env p ctx epoch true s rb unresp).session.qoSInfo.answeredRelays
        = s.qoSInfo.answeredRelays) := by
  refine ⟨?_, ?_, ?_, ?_, ?_, ?_⟩
  · cases h1 : env.signRelay (primaryRequest env p s (Int.ofNat epoch) unresp) with
    | error e =>
      unfold callbackSendRelay
      simp only [h1]
      exact h
    | ok sg =>
      unfold callbackSendRelay
      simp only [h1]
      cases isSubscription with
      | false =>
        simp only [Bool.false_eq_true, if_false]
        cases h2 : env.relay (Ctx.withTimeout ctx DefaultTimeout)
            (withSig (primaryRequest env p s (Int.ofNat epoch) unresp) sg) with
        | error e =>
          simp only [bumpTimeoutOn, bumpTotal]
          split <;> simp <;> omega
        | ok reply =>
          cases hv : VerifyRelayReply env.sigs env.sdk reply
              (UpdateRequestedBlock
                (withSig (primaryRequest env p s (Int.ofNat epoch) unresp) sg) reply)
              s.clientAcc env.sentry.specComparesHashes <;>
            simp only [hv] <;> simp [markAnswered, bumpTotal, setReport] <;> omega
      | true =>
        simp only [if_true]
        cases h2 : env.relaySubscribe ctx
            (withSig (primaryRequest env p s (Int.ofNat epoch) unresp) sg) with
        | error e =>
          simp only [bumpTimeoutOn, bumpTotal]
          split <;> simp <;> omega
        | ok sub =>
          simp [bumpTotal]
          omega
  · intro e h1
    unfold callbackSendRelay
    simp only [h1]
    exact ⟨trivial, trivial⟩
  · intro sg h1
    unfold callbackSendRelay
    simp only [h1]
    cases isSubscription with
    | false =>
      simp only [Bool.false_eq_true, if_false]
      cases h2 : env.relay (Ctx.withTimeout ctx DefaultTimeout)
          (withSig (primaryRequest env p s (Int.ofNat epoch) unresp) sg) with
      | error e =>
        simp only [bumpTimeoutOn, bumpTotal]
        split <;> simp
      | ok reply =>
        cases hv : VerifyRelayReply env.sigs env.sdk reply
            (UpdateRequestedBlock
              (withSig (primaryRequest env p s (Int.ofNat epoch) unresp) sg) reply)
            s.clientAcc env.sentry.specComparesHashes <;>
          simp only [hv] <;> simp [markAnswered, bumpTotal, setReport]
    | true =>
      simp only [if_true]
      cases h2 : env.relaySubscribe ctx
          (withSig (primaryRequest env p s (Int.ofNat epoch) unresp) sg) with
      | error e =>
        simp only [bumpTimeoutOn, bumpTotal]
        split <;> simp
      | ok sub =>
        simp [bumpTotal]
  · intro sg reply h1 h2
    unfold callbackSendRelay
    simp only [h1, h2, Bool.false_eq_true, if_false]
    cases hv : VerifyRelayReply env.sigs env.sdk reply
        (UpdateRequestedBlock (withSig (primaryRequest env p s (Int.ofNat epoch) unresp) sg)
          reply) s.clientAcc env.sentry.specComparesHashes <;>
      simp only [hv] <;> rfl
  · intro sg e h1 h2
    unfold callbackSendRelay
    simp only [h1, h2, Bool.false_eq_true, if_false]
    unfold bumpTimeoutOn bumpTotal
    by_cases hd : e.msg = deadlineExceededMsg
    · simp only [if_pos hd]
    · simp only [if_neg hd]
  · intro sg h1
    unfold callbackSendRelay
    simp only [h1, if_true]
    cases h2 : env.relaySubscribe ctx
        (withSig (primaryRequest env p s (Int.ofNat epoch) unresp) sg) with
    | error e =>
      unfold bumpTimeoutOn bumpTotal
      by_cases hd : e.msg = deadlineExceededMsg
      · simp only [if_pos hd]
      · simp only [if_neg hd]
    | ok sub => rfl

/-- Witness for C10 on the concrete sample session with 5 answered of 7
total relays. -/
theorem totalRelays_ge_answeredRelays_witness :
    (callbackSendRelay cexEnv sampleParams .caller 5 false sampleSession 0
        none).session.qoSInfo.answeredRelays
      ≤ (callbackSendRelay cexEnv sampleParams .caller 5 false sampleSession 0
          none).session.qoSInfo.totalRelays :=
  (totalRelays_ge_answeredRelays cexEnv sampleParams .caller 5 false sampleSession 0 none
    (by decide)).1

/-- Helper: `callback_send_relay` sets the shared `blockHeight` variable
to the epoch (line 120) on every path, success or failure. -/
theorem callbackSendRelay_blockHeight (env : Env) (p : CallParams) (ctx : Ctx) (epoch : Nat)
    (isSubscription : Bool) (s : SingleConsumerSession) (rb : Int) (unresp : Option String) :
    (callbackSendRelay env p ctx epoch isSubscription s rb unresp).blockHeight
      = Int.ofNat epoch := by
  unfold callbackSendRelay
  cases h1 : env.signRelay (primaryRequest env p s (Int.ofNat epoch) unresp) with
  | error e => simp only [h1]
  | ok sg =>
    cases isSubscription with
    | false =>
      cases h2 : env.relay (Ctx.withTimeout ctx DefaultTimeout)
          (withSig (primaryRequest env p s (Int.ofNat epoch) unresp) sg) with
      | error e => simp only [h1, h2, Bool.false_eq_true, if_false]
      | ok reply =>
        cases hv : VerifyRelayReply env.sigs env.sdk reply
            (UpdateRequestedBlock
              (withSig (primaryRequest env p s (Int.ofNat epoch) unresp) sg) reply)
            s.clientAcc env.sentry.specComparesHashes <;>
          simp only [h1, h2, hv, Bool.false_eq_true, if_false]
    | true =>
      cases h2 : env.relaySubscribe ctx
          (withSig (primaryRequest env p s (Int.ofNat epoch) unresp) sg) <;>
        simp only [h1, h2, if_true]

/-- Helper: when a unary run of `callback_send_relay` returns a reply and
a request, the shared `requestedBlock` variable on exit equals the
returned request's `RequestBlock` (the primary request as overwritten by
`UpdateRequestedBlock`, lines 171-173). -/
theorem callbackSendRelay_ok_requestedBlock (env : Env) (p : CallParams) (ctx : Ctx)
    (epoch : Nat) (s : SingleConsumerSession) (rb : Int) (unresp : Option String)
    (reply : RelayReply) (subOpt : Option SubHandle) (req1 : RelayRequest)
    (h : (callbackSendRelay env p ctx epoch false s rb unresp).result
      = .ok (some reply, subOpt, some req1)) :
    (callbackSendRelay env p ctx epoch false s rb unresp).requestedBlock
      = req1.requestBlock := by
  unfold callbackSendRelay at h ⊢
  cases h1 : env.signRelay (primaryRequest env p s (Int.ofNat epoch) unresp) with
  | error e =>
    simp only [h1] at h
    exact Except.noConfusion h
  | ok sg =>
    cases h2 : env.relay (Ctx.withTimeout ctx DefaultTimeout)
        (withSig (primaryRequest env p s (Int.ofNat epoch) unresp) sg) with
    | error e =>
      simp only [h1, h2, Bool.false_eq_true, if_false] at h
      exact Except.noConfusion h
    | ok rep =>
      cases hv : VerifyRelayReply env.sigs env.sdk rep
          (UpdateRequestedBlock (withSig (primaryRequest env p s (Int.ofNat epoch) unresp) sg)
            rep) s.clientAcc env.sentry.specComparesHashes with
      | error e =>
        simp only [h1, h2, hv, Bool.false_eq_true, if_false] at h
        exact Except.noConfusion h
      | ok u =>
        simp only [h1, h2, hv, Bool.false_eq_true, if_false, Except.ok.injEq,
          Prod.mk.injEq, Option.some.injEq] at h ⊢
        obtain ⟨hrep, hsub, hreq⟩ := h
        rw [hreq]

/-- Helper: once the `blockHeight` guard passes, the first external
invocation `callback_send_reliability` makes is signing exactly the
reliability request built from its inputs. -/
theorem callbackSendReliability_trace_head (env : Env) (p : CallParams) (ctx : Ctx)
    (s : SingleConsumerSession) (bh rb : Int) (d : VRFData) (unresp : Option String)
    (h : ¬ bh < 0) :
    (callbackSendReliability env p ctx s bh rb d unresp).trace.head?
      = some (.signRelayCall (reliabilityRequest env p s bh rb d unresp)
          (env.signRelay (reliabilityRequest env p s bh rb d unresp))) := by
  unfold callbackSendReliability
  cases h1 : env.signRelay (reliabilityRequest env p s bh rb d unresp) with
  | error e => simp only [if_neg h, h1, List.head?]
  | ok sg =>
    cases h2 : env.signVRFData d with
    | error e => simp only [if_neg h, h1, h2, List.head?]
    | ok vsg =>
      cases h3 : env.relay ctx
          (setVRFSig (withSig (reliabilityRequest env p s bh rb d unresp) sg) vsg) with
      | error e => simp only [if_neg h, h1, h2, h3, List.head?]
      | ok reply =>
        cases hv : VerifyRelayReply env.sigs env.sdk reply
            (setVRFSig (withSig (reliabilityRequest env p s bh rb d unresp) sg) vsg)
            s.clientAcc env.sentry.specComparesHashes <;>
          simp only [if_neg h, h1, h2, h3, hv, List.head?]

/-- C4: after a successful unary primary relay, the reliability follow-up
request built from the dispatcher's shared state has `SessionId` 0 and its
`RequestBlock` equals the `RequestBlock` of the request the primary
attempt returned — the concrete block the primary reply resolved to after
`UpdateRequestedBlock`, not a re-resolution of the original hint — and
`callback_send_reliability` signs exactly that request as its first
external invocation. -/
theorem reliability_request_pinned (env : Env) (p : CallParams) (ctx ctx2 : Ctx) (epoch : Nat)
    (s : SingleConsumerSession) (rb : Int) (unresp unresp2 : Option String) (d : VRFData)
    (reply : RelayReply) (subOpt : Option SubHandle) (req1 : RelayRequest)
    (r1 : RelayCallbackResult) (r2 : ReliabilityCallbackResult)
    (hr1 : r1 = callbackSendRelay env p ctx epoch false s rb unresp)
    (h : r1.result = .ok (some reply, subOpt, some req1))
    (hr2 : r2 = callbackSendReliability env p ctx2 r1.session r1.blockHeight r1.requestedBlock
      d unresp2) :
    (reliabilityRequest env p r1.session r1.blockHeight r1.requestedBlock d unresp2).sessionId
      = 0 ∧
    (reliabilityRequest env p r1.session r1.blockHeight r1.requestedBlock d unresp2).requestBlock
      = req1.requestBlock ∧
    r2.trace.head?
      = some (.signRelayCall
          (reliabilityRequest env p r1.session r1.blockHeight r1.requestedBlock d unresp2)
          (env.signRelay
            (reliabilityRequest env p r1.session r1.blockHeight r1.requestedBlock
              d unresp2))) := by
  subst hr1
  have hrb := callbackSendRelay_ok_requestedBlock env p ctx epoch s rb unresp reply subOpt
    req1 h
  have hbh := callbackSendRelay_blockHeight env p ctx epoch false s rb unresp
  refine ⟨rfl, hrb, ?_⟩
  subst hr2
  exact callbackSendReliability_trace_head env p ctx2 _ _ _ d unresp2
    (by rw [hbh]; exact not_lt.mpr (Int.ofNat_nonneg epoch))

/-- Witness for C4 on a concrete successful unary run: the reliability
request carries session id 0 and the primary's resolved request block. -/
theorem reliability_request_pinned_witness :
    (reliabilityRequest okEnv sampleParams
        (callbackSendRelay okEnv sampleParams .caller 5 false sampleSession 0 none).session
        (callbackSendRelay okEnv sampleParams .caller 5 false sampleSession 0 none).blockHeight
        (callbackSendRelay okEnv sampleParams .caller 5 false sampleSession 0
          none).requestedBlock
        sampleVRF none).sessionId = 0 ∧
    (reliabilityRequest okEnv sampleParams
        (callbackSendRelay okEnv sampleParams .caller 5 false sampleSession 0 none).session
        (callbackSendRelay okEnv sampleParams .caller 5 false sampleSession 0 none).blockHeight
        (callbackSendRelay okEnv sampleParams .caller 5 false sampleSession 0
          none).requestedBlock
        sampleVRF none).requestBlock = samplePrimaryReturned.requestBlock :=
  ⟨(reliability_request_pinned okEnv sampleParams .caller .caller 5 sampleSession 0 none none
      sampleVRF sampleReply none samplePrimaryReturned _ _ rfl rfl rfl).1,
   (reliability_request_pinned okEnv sampleParams .caller .caller 5 sampleSession 0 none none
      sampleVRF sampleReply none samplePrimaryReturned _ _ rfl rfl rfl).2.1⟩

end Chainproxy
